import Mathlib

/-!
# Ticket-booking payment core: verified embedding

Shallow embedding of the payment-order lifecycle of the movie-ticket booking
server (routes/payments.js): Razorpay order creation, HMAC-SHA-256 signature
verification, client-side payment confirmation, the webhook reconciler and the
refund processor, together with the JavaScript number semantics (binary64)
used for the major-to-minor-unit amount conversion.

Machine integers are modelled as `Nat` with explicit reduction modulo `2^32`;
JavaScript numbers are modelled as exact rationals that are values of normal
binary64 floating-point numbers, with explicit round-to-nearest-even after
each arithmetic operation.
-/

/-! ## Bytes, UTF-8 and hex encoding -/

/-- Reduce to a 32-bit word, as JavaScript/Node's crypto does internally. -/
def u32 (n : Nat) : Nat := n % 4294967296

/-- Rotate a 32-bit word right by `n` bits. -/
def rotr (n x : Nat) : Nat := u32 ((x >>> n) ||| (x <<< (32 - n)))

/-- SHA-256 Σ₀. -/
def bsig0 (x : Nat) : Nat := (rotr 2 x) ^^^ (rotr 13 x) ^^^ (rotr 22 x)

/-- SHA-256 Σ₁. -/
def bsig1 (x : Nat) : Nat := (rotr 6 x) ^^^ (rotr 11 x) ^^^ (rotr 25 x)

/-- SHA-256 σ₀. -/
def ssig0 (x : Nat) : Nat := (rotr 7 x) ^^^ (rotr 18 x) ^^^ (x >>> 3)

/-- SHA-256 σ₁. -/
def ssig1 (x : Nat) : Nat := (rotr 17 x) ^^^ (rotr 19 x) ^^^ (x >>> 10)

/-- SHA-256 Ch: bitwise complement written as xor with `0xFFFFFFFF`. -/
def ch (x y z : Nat) : Nat := (x &&& y) ^^^ ((x ^^^ 4294967295) &&& z)

/-- SHA-256 Maj. -/
def maj (x y z : Nat) : Nat := (x &&& y) ^^^ (x &&& z) ^^^ (y &&& z)

/-- The 64 SHA-256 round constants (FIPS 180-4), in decimal. -/
def sha256K : List Nat :=
  [1116352408, 1899447441, 3049323471, 3921009573, 961987163, 1508970993,
   2453635748, 2870763221, 3624381080, 310598401, 607225278, 1426881987,
   1925078388, 2162078206, 2614888103, 3248222580, 3835390401, 4022224774,
   264347078, 604807628, 770255983, 1249150122, 1555081692, 1996064986,
   2554220882, 2821834349, 2952996808, 3210313671, 3336571891, 3584528711,
   113926993, 338241895, 666307205, 773529912, 1294757372, 1396182291,
   1695183700, 1986661051, 2177026350, 2456956037, 2730485921, 2820302411,
   3259730800, 3345764771, 3516065817, 3600352804, 4094571909, 275423344,
   430227734, 506948616, 659060556, 883997877, 958139571, 1322822218,
   1537002063, 1747873779, 1955562222, 2024104815, 2227730452, 2361852424,
   2428436474, 2756734187, 3204031479, 3329325298]

/-- Big-endian byte expansion of `n` into `k` bytes. -/
def beBytes : Nat → Nat → List Nat
  | 0, _ => []
  | k + 1, n => beBytes k (n >>> 8) ++ [n % 256]

/-- SHA-256 padding: append `0x80`, zeros, then the 64-bit big-endian bit length. -/
def sha256Pad (msg : List Nat) : List Nat :=
  let padZeros := (119 - msg.length % 64) % 64
  msg ++ [128] ++ List.replicate padZeros 0 ++ beBytes 8 (msg.length * 8)

/-- Group four big-endian bytes into one 32-bit word. -/
def toWords : List Nat → List Nat
  | a :: b :: c :: d :: rest =>
      ((((a <<< 8 ||| b) <<< 8) ||| c) <<< 8 ||| d) :: toWords rest
  | _ => []

/-- Extend a 16-word message schedule by `n` further words. -/
def extendW : Nat → List Nat → List Nat
  | 0, acc => acc
  | n + 1, acc =>
      let t := acc.length
      let next := u32 (ssig1 (acc.getD (t - 2) 0) + acc.getD (t - 7) 0 +
        ssig0 (acc.getD (t - 15) 0) + acc.getD (t - 16) 0)
      extendW n (acc ++ [next])

/-- The eight 32-bit working variables of SHA-256. -/
structure Hash8 where
  a : Nat
  b : Nat
  c : Nat
  d : Nat
  e : Nat
  f : Nat
  g : Nat
  h : Nat
deriving Repr, DecidableEq

/-- The SHA-256 initial hash value (FIPS 180-4), in decimal. -/
def sha256H0 : Hash8 :=
  ⟨1779033703, 3144134277, 1013904242, 2773480762,
   1359893119, 2600822924, 528734635, 1541459225⟩

/-- One SHA-256 compression round with round constant `ki` and schedule word `wi`. -/
def compressRound (st : Hash8) (kw : Nat × Nat) : Hash8 :=
  let t1 := u32 (st.h + bsig1 st.e + ch st.e st.f st.g + kw.1 + kw.2)
  let t2 := u32 (bsig0 st.a + maj st.a st.b st.c)
  ⟨u32 (t1 + t2), st.a, st.b, st.c, u32 (st.d + t1), st.e, st.f, st.g⟩

/-- Compress one 64-byte block into the running hash. -/
def compressBlock (H : Hash8) (block : List Nat) : Hash8 :=
  let ws := extendW 48 (toWords block)
  let s := (sha256K.zip ws).foldl compressRound H
  ⟨u32 (H.a + s.a), u32 (H.b + s.b), u32 (H.c + s.c), u32 (H.d + s.d),
   u32 (H.e + s.e), u32 (H.f + s.f), u32 (H.g + s.g), u32 (H.h + s.h)⟩

/-- Split a byte list into 64-byte chunks (fuel bounds the recursion so the
definition is structural and kernel-evaluable). -/
def chunks64 : Nat → List Nat → List (List Nat)
  | 0, _ => []
  | _, [] => []
  | fuel + 1, x :: xs => ((x :: xs).take 64) :: chunks64 fuel ((x :: xs).drop 64)

/-- SHA-256 of a byte list, as 32 bytes. -/
def sha256Bytes (msg : List Nat) : List Nat :=
  let padded := sha256Pad msg
  let hf := (chunks64 padded.length padded).foldl compressBlock sha256H0
  ([hf.a, hf.b, hf.c, hf.d, hf.e, hf.f, hf.g, hf.h].map (beBytes 4)).flatten

/-- HMAC-SHA-256 (RFC 2104) of a message under a key, as 32 bytes. -/
def hmacSha256 (key msg : List Nat) : List Nat :=
  let k0 := if key.length > 64 then sha256Bytes key else key
  let kpad := k0 ++ List.replicate (64 - k0.length) 0
  sha256Bytes ((kpad.map (· ^^^ 92)) ++ sha256Bytes ((kpad.map (· ^^^ 54)) ++ msg))

/-- Lower-case hexadecimal digit. -/
def hexDigit (n : Nat) : Char := if n < 10 then Char.ofNat (48 + n) else Char.ofNat (87 + n)

/-- Lower-case hex encoding of a byte list, Node's `digest('hex')`. -/
def bytesToHex (bs : List Nat) : String :=
  String.mk ((bs.map (fun b => [hexDigit (b / 16), hexDigit (b % 16)])).flatten)

/-- UTF-8 encoding of a single character. -/
def utf8Char (c : Char) : List Nat :=
  let n := c.toNat
  if n < 128 then [n]
  else if n < 2048 then [192 + n / 64, 128 + n % 64]
  else if n < 65536 then [224 + n / 4096, 128 + (n / 64) % 64, 128 + n % 64]
  else [240 + n / 262144, 128 + (n / 4096) % 64, 128 + (n / 64) % 64, 128 + n % 64]

/-- UTF-8 bytes of a string, Node's default encoding for `hmac.update`. -/
def utf8Bytes (s : String) : List Nat := (s.data.map utf8Char).flatten

/-- Hex digest of HMAC-SHA-256 over strings:
`crypto.createHmac('sha256', secret).update(msg).digest('hex')`. -/
def hmacSha256Hex (secret msg : String) : String :=
  bytesToHex (hmacSha256 (utf8Bytes secret) (utf8Bytes msg))

/-- The signature check both payment paths perform: recompute the HMAC hex
digest and compare with the candidate (`expectedSignature !== signature`). -/
def verifySignature (secret msg sig : String) : Bool :=
  if hmacSha256Hex secret msg = sig then true else false

/-! ## JavaScript number semantics

`booking.totalAmount * 100` and `refundAmount * 100` are evaluated in
IEEE-754 binary64 arithmetic.  A double is modelled as the exact rational it
denotes; `toDouble` rounds an arbitrary rational to the nearest binary64
value (round-to-nearest, ties-to-even, normal range). -/

/-- Integral power of two as a rational. -/
def pow2 : ℤ → ℚ
  | .ofNat n => ((2 ^ n : ℕ) : ℚ)
  | .negSucc n => mkRat 1 (2 ^ (n + 1))

/-- Binary exponent search: starting from `(a, e)` with `a * 2 ^ e` invariant,
normalise until `1 ≤ a < 2`, returning the binary exponent. -/
def findExpAux : Nat → ℚ → ℤ → ℤ
  | 0, _, e => e
  | fuel + 1, a, e =>
    if a < 1 then findExpAux fuel (a * 2) (e - 1)
    else if a < 2 then e
    else findExpAux fuel (a / 2) (e + 1)

/-- The binary exponent of a positive rational: `e` with `2 ^ e ≤ a < 2 ^ (e+1)`. -/
def findExp (a : ℚ) : ℤ := findExpAux 1200 a 0

/-- Round a rational to the nearest integer, ties to even. -/
def roundHalfEven (q : ℚ) : ℤ :=
  let f := ⌊q⌋
  let r := q - f
  if r < mkRat 1 2 then f
  else if mkRat 1 2 < r then f + 1
  else if f % 2 = 0 then f else f + 1

/-- The binary64 value nearest to a rational (normal range, ties to even):
the significand is `roundHalfEven (|q| * 2 ^ (52 - exponent))`. -/
def toDouble (q : ℚ) : ℚ :=
  if q = 0 then 0
  else
    let a := |q|
    let e : ℤ := findExp a
    let m : ℤ := roundHalfEven (a * pow2 (52 - e))
    (if q < 0 then -1 else 1) * (m : ℚ) * pow2 (e - 52)

/-- JavaScript `x * y` on doubles: exact product, rounded back to binary64. -/
def jsMul (x y : ℚ) : ℚ := toDouble (x * y)

/-- JavaScript `Math.round`: nearest integer, ties toward positive infinity. -/
def mathRound (x : ℚ) : ℤ := ⌊x + mkRat 1 2⌋

/-- The major-to-minor-unit conversion at both gateway call sites:
`Math.round(amount * 100)` (rupees to paise). -/
def toMinorUnits (amount : ℚ) : ℤ := mathRound (jsMul amount 100)

/-! ## Data model

Field names follow the Mongoose `Booking` schema as used by the payment
routes.  `paidAt`/`sentAt` timestamps are `Nat` (milliseconds); amounts are
rationals holding binary64 values. -/

/-- The `booking.payment` sub-record. -/
structure PaymentInfo where
  status : String
  razorpayOrderId : Option String
  razorpayPaymentId : Option String
  razorpaySignature : Option String
  transactionId : Option String
  paidAt : Option Nat
deriving Repr, DecidableEq

/-- The `booking.cancellation` sub-record. -/
structure CancelInfo where
  isCancelled : Bool
  refundStatus : String
  refundAmount : ℚ
  refundTransactionId : Option String
deriving Repr, DecidableEq

/-- The `booking.notifications.bookingConfirmation` marker. -/
structure NotifyMark where
  sent : Bool
  sentAt : Option Nat
deriving Repr, DecidableEq

/-- A booking document (the fields the payment routes read or write). -/
structure Booking where
  user : String
  status : String
  bookingNumber : String
  totalAmount : ℚ
  payment : PaymentInfo
  cancellation : CancelInfo
  qrCode : Option String
  bookingConfirmation : NotifyMark
deriving Repr, DecidableEq

/-- Association-list lookup by booking id (first entry with the key). -/
def lookupB : List (String × Booking) → String → Option Booking
  | [], _ => none
  | (k, v) :: rest, id => if k = id then some v else lookupB rest id

/-- Association-list update at a key (first entry with the key). -/
def updateB : List (String × Booking) → String → Booking → List (String × Booking)
  | [], _, _ => []
  | (k, v) :: rest, id, b => if k = id then (k, b) :: rest else (k, v) :: updateB rest id b

/-- The two places bookings live: the in-memory `dummyBookings` map for demo
ids and the durable `Booking` collection. -/
structure Store where
  dummy : List (String × Booking)
  db : List (String × Booking)
deriving Repr, DecidableEq

/-- `bookingId.startsWith('booking_')`: demo-id shape test. -/
def startsWithBooking (s : String) : Bool :=
  if s.data.take 8 = "booking_".data then true else false

/-- `findBooking`: demo ids resolve in the in-memory map, everything else in
the durable store; the flag reports which branch was taken. -/
def findBooking (store : Store) (bookingId : String) : Option Booking × Bool :=
  if startsWithBooking bookingId then (lookupB store.dummy bookingId, true)
  else (lookupB store.db bookingId, false)

/-- Environment configuration of the payment routes. -/
structure Config where
  razorpayKeyId : Option String
  razorpayKeySecret : Option String
  webhookSecret : Option String

/-- The Razorpay client exists iff both keys are configured. -/
def Config.razorpayConfigured (cfg : Config) : Bool :=
  cfg.razorpayKeyId.isSome && cfg.razorpayKeySecret.isSome

/-- Observable handler outcomes (HTTP status + message, abstracted). -/
inductive Res where
  | validationFailed
  | serviceUnavailable
  | notFound
  | accessDenied
  | notPending
  | invalidSignature
  | notCancelled
  | alreadyProcessed
  | noRefundAmount
  | noPaymentId
  | serverError
  | orderCreated (orderId : String) (amount : ℤ)
  | paymentVerified
  | refunded (id : String)
  | webhookOk
  | webhookBadSignature
deriving Repr, DecidableEq

/-- `express-validator` `isMongoId()`: 24 hex characters. -/
def isHexChar (c : Char) : Bool :=
  (('0' ≤ c && c ≤ '9') || ('a' ≤ c && c ≤ 'f')) || ('A' ≤ c && c ≤ 'F')

/-- Mongo object-id shape check used by the refund route's validation. -/
def isMongoId (s : String) : Bool :=
  s.data.length == 24 && s.data.all isHexChar

/-- JavaScript string truthiness of an optional string (`undefined` and `''`
are falsy). -/
def truthyStr : Option String → Bool
  | none => false
  | some s => if s = "" then false else true

/-! ## The four handlers

Each handler is the pure state transformer of the corresponding route body:
the external gateway is a call-site parameter (`gw`, applied to the
minor-unit amount, returning the created/refunded id or throwing), the QR
generator's output and the clock are parameters, and a thrown gateway call is
the `Except.error` case, landing in the route's `catch` (a 500 with no state
change). -/

/-- Request body of `POST /api/payments/create-order`, plus `req.user`. -/
structure CreateOrderReq where
  bookingId : String
  userId : String

/-- `POST /api/payments/create-order`. -/
def createOrderH (cfg : Config) (store : Store) (req : CreateOrderReq)
    (gw : ℤ → Except Unit String) : Res × Store :=
  if !cfg.razorpayConfigured then (.serviceUnavailable, store)
  else if req.bookingId = "" then (.validationFailed, store)
  else
    match findBooking store req.bookingId with
    | (none, _) => (.notFound, store)
    | (some b, isDummy) =>
      if b.user ≠ req.userId then (.accessDenied, store)
      else if b.status ≠ "pending" then (.notPending, store)
      else
        let amountInPaise := toMinorUnits b.totalAmount
        match gw amountInPaise with
        | .error _ => (.serverError, store)
        | .ok orderId =>
          let b' := { b with payment := { b.payment with razorpayOrderId := some orderId } }
          let store' :=
            if isDummy then { store with dummy := updateB store.dummy req.bookingId b' }
            else { store with db := updateB store.db req.bookingId b' }
          (.orderCreated orderId amountInPaise, store')

/-- Request body of `POST /api/payments/verify-payment`, plus `req.user`. -/
structure VerifyReq where
  razorpay_order_id : String
  razorpay_payment_id : String
  razorpay_signature : String
  bookingId : String
  userId : String

/-- `POST /api/payments/verify-payment`.  The signature is checked before the
booking is even looked up; `createHmac` with an unset secret throws, caught
as a 500.  `qr` is the (externally generated) QR payload attached on the
durable branch. -/
def verifyPaymentH (cfg : Config) (store : Store) (req : VerifyReq)
    (qr : String) (now : Nat) : Res × Store :=
  if req.bookingId = "" then (.validationFailed, store)
  else
    match cfg.razorpayKeySecret with
    | none => (.serverError, store)
    | some secret =>
      if !verifySignature secret (req.razorpay_order_id ++ "|" ++ req.razorpay_payment_id)
          req.razorpay_signature then (.invalidSignature, store)
      else
        match findBooking store req.bookingId with
        | (none, _) => (.notFound, store)
        | (some b, isDummy) =>
          if b.user ≠ req.userId then (.accessDenied, store)
          else
            let core := { b with
              status := "confirmed"
              payment := { b.payment with
                status := "completed"
                transactionId := some req.razorpay_payment_id
                razorpayPaymentId := some req.razorpay_payment_id
                razorpaySignature := some req.razorpay_signature
                paidAt := some now } }
            if isDummy then
              (.paymentVerified, { store with dummy := updateB store.dummy req.bookingId core })
            else
              let b' := { core with
                qrCode := some qr
                bookingConfirmation := { sent := true, sentAt := some now } }
              (.paymentVerified, { store with db := updateB store.db req.bookingId b' })

/-- Request body of `POST /api/payments/refund`, plus `req.user`. -/
structure RefundReq where
  bookingId : String
  amount : Option ℚ
  userId : String
  role : String

/-- `POST /api/payments/refund`.  Looks up the durable store only (the route
uses `Booking.findById` directly, and `isMongoId` already rejects demo ids). -/
def refundH (cfg : Config) (store : Store) (req : RefundReq)
    (gw : ℤ → Except Unit String) : Res × Store :=
  if !cfg.razorpayConfigured then (.serviceUnavailable, store)
  else if !isMongoId req.bookingId then (.validationFailed, store)
  else if (match req.amount with | some a => decide (a < 0) | none => false) then
    (.validationFailed, store)
  else
    match lookupB store.db req.bookingId with
    | none => (.notFound, store)
    | some b =>
      if b.user ≠ req.userId ∧ req.role ≠ "admin" then (.accessDenied, store)
      else if !b.cancellation.isCancelled then (.notCancelled, store)
      else if b.cancellation.refundStatus = "processed" then (.alreadyProcessed, store)
      else
        let refundAmount :=
          match req.amount with
          | some a => if a = 0 then b.cancellation.refundAmount else a
          | none => b.cancellation.refundAmount
        if refundAmount ≤ 0 then (.noRefundAmount, store)
        else
          let paymentId :=
            if truthyStr b.payment.razorpayPaymentId then b.payment.razorpayPaymentId
            else b.payment.transactionId
          if !truthyStr paymentId then (.noPaymentId, store)
          else
            match gw (toMinorUnits refundAmount) with
            | .error _ => (.serverError, store)
            | .ok refundId =>
              let b' := { b with cancellation := { b.cancellation with
                refundStatus := "processed"
                refundTransactionId := some refundId } }
              (.refunded refundId, { store with db := updateB store.db req.bookingId b' })

/-- A parsed webhook event: `event.event` and the captured payment entity's
`order_id` and `id`.  The raw body is carried separately because the
signature is computed over the unparsed bytes; the event is understood to be
`JSON.parse` of that body (parsing is Node's, external to this core). -/
structure WebhookEvent where
  event : String
  orderId : String
  paymentId : String

/-- `Booking.findOne({'payment.razorpayOrderId': oid})`: first entry whose
booking carries the gateway order id. -/
def findByOrderId : List (String × Booking) → String → Option (String × Booking)
  | [], _ => none
  | (k, b) :: rest, oid =>
    if b.payment.razorpayOrderId = some oid then some (k, b) else findByOrderId rest oid

/-- `POST /api/payments/webhook`.  With no webhook secret configured the
handler acknowledges immediately without processing; otherwise it verifies
the HMAC of the raw body against the `x-razorpay-signature` header and, for a
`payment.captured` event, confirms the matching booking iff it is still
pending.  Internal lookup/save errors are swallowed (still a 200). -/
def webhookH (cfg : Config) (store : Store) (rawBody : String)
    (ev : WebhookEvent) (sigHeader : Option String) (now : Nat) : Res × Store :=
  match cfg.webhookSecret with
  | none => (.webhookOk, store)
  | some ws =>
    if sigHeader ≠ some (hmacSha256Hex ws rawBody) then (.webhookBadSignature, store)
    else if ev.event = "payment.captured" then
      match findByOrderId store.db ev.orderId with
      | some (k, b) =>
        if b.status = "pending" then
          let b' := { b with
            status := "confirmed"
            payment := { b.payment with
              status := "completed"
              transactionId := some ev.paymentId
              paidAt := some now } }
          (.webhookOk, { store with db := updateB store.db k b' })
        else (.webhookOk, store)
      | none => (.webhookOk, store)
    else (.webhookOk, store)

/-! ## Association-list lemmas -/

theorem lookupB_updateB_self (l : List (String × Booking)) (k : String) (b : Booking)
    (h : lookupB l k ≠ none) : lookupB (updateB l k b) k = some b := by
  induction l with
  | nil => simp [lookupB] at h
  | cons hd tl ih =>
    obtain ⟨k', v⟩ := hd
    by_cases hk : k' = k
    · simp [updateB, lookupB, hk]
    · simp only [updateB, lookupB, if_neg hk] at h ⊢
      exact ih h

theorem lookupB_updateB_other (l : List (String × Booking)) (k : String) (b : Booking)
    (id : String) (h : id ≠ k) : lookupB (updateB l k b) id = lookupB l id := by
  induction l with
  | nil => rfl
  | cons hd tl ih =>
    obtain ⟨k', v⟩ := hd
    by_cases hk : k' = k
    · subst hk
      have hne : ¬k' = id := fun he => h he.symm
      simp [updateB, lookupB, if_neg hne]
    · simp only [updateB, lookupB, if_neg hk]
      by_cases hid : k' = id
      · simp [hid]
      · simp [if_neg hid, ih]

/-! ## Concrete fixtures used by witnesses and counterexamples -/

/-- A zero-valued payment sub-record, as bookings are created with. -/
def pay0 : PaymentInfo :=
  { status := "pending", razorpayOrderId := none, razorpayPaymentId := none,
    razorpaySignature := none, transactionId := none, paidAt := none }

/-- A cancellation sub-record of a never-cancelled booking. -/
def cancel0 : CancelInfo :=
  { isCancelled := false, refundStatus := "none", refundAmount := 0,
    refundTransactionId := none }

/-- A pending booking owned by `u1` with total amount 200 rupees. -/
def bPending : Booking :=
  { user := "u1", status := "pending", bookingNumber := "BK001", totalAmount := 200,
    payment := pay0, cancellation := cancel0, qrCode := none,
    bookingConfirmation := { sent := false, sentAt := none } }

/-- A fully configured environment. -/
def cfg0 : Config :=
  { razorpayKeyId := some "rzp_test_k", razorpayKeySecret := some "s3cret",
    webhookSecret := some "whsec" }

/-! ## Claims -/

/-- **C1.** Signature verification is a pure function computing HMAC-SHA-256
over the message with the secret and comparing hex digests: for every secret
and message, verifying the genuine digest succeeds, and any signature that
differs from the genuine digest is rejected. -/
theorem verifySignatureCorrect (secret msg : String) :
    verifySignature secret msg (hmacSha256Hex secret msg) = true ∧
    ∀ sig : String, sig ≠ hmacSha256Hex secret msg →
      verifySignature secret msg sig = false := by
  refine ⟨by simp [verifySignature], fun sig h => ?_⟩
  have hne : ¬hmacSha256Hex secret msg = sig := fun he => h he.symm
  simp only [verifySignature, if_neg hne]

set_option maxRecDepth 400000 in
/-- Witness for C1 at a concrete secret, message and corrupted signature. -/
theorem verifySignatureCorrectWitness :
    verifySignature "k" "o|p" (hmacSha256Hex "k" "o|p") = true ∧
    ("deadbeef" ≠ hmacSha256Hex "k" "o|p" ∧
      verifySignature "k" "o|p" "deadbeef" = false) :=
  ⟨(verifySignatureCorrect "k" "o|p").1,
   by decide, (verifySignatureCorrect "k" "o|p").2 "deadbeef" (by decide)⟩

attribute [local semireducible] Rat.add Rat.mul Rat.inv Rat.sub in
/-- **C3.** The major-to-minor-unit conversion used at both gateway call
sites is `Math.round(amount * 100)` with round-half-up semantics and never
truncates: on binary64 inputs, `toMinorUnits 19.995 = 2000` and
`toMinorUnits 200 = 20000`, and in general the rounded value is within a
half of the (binary64) product, with ties going up. -/
theorem toMinorUnitsRoundsHalfUp :
    toMinorUnits (toDouble (mkRat 19995 1000)) = 2000 ∧
    toMinorUnits (toDouble 200) = 20000 ∧
    ∀ a : ℚ, jsMul a 100 - mkRat 1 2 < ((toMinorUnits a : ℤ) : ℚ) ∧
      ((toMinorUnits a : ℤ) : ℚ) ≤ jsMul a 100 + mkRat 1 2 := by
  refine ⟨by decide, by decide, fun a => ?_⟩
  have hhalf : (mkRat 1 2 : ℚ) = 1 / 2 := by norm_num [mkRat, Rat.normalize]
  constructor
  · have := Int.sub_one_lt_floor (jsMul a 100 + mkRat 1 2)
    simp only [toMinorUnits, mathRound]
    rw [hhalf] at this ⊢
    linarith
  · have := Int.floor_le (jsMul a 100 + mkRat 1 2)
    simp only [toMinorUnits, mathRound]
    rw [hhalf] at this ⊢
    linarith

/-- **C8.** Refund is atomic with respect to gateway failure: if the
gateway's refund call throws, the booking store is unchanged by the request
(no partial-success state). -/
theorem refundAtomicOnGatewayFailure (cfg : Config) (store : Store) (req : RefundReq)
    (gw : ℤ → Except Unit String) (h : ∀ amt, gw amt = Except.error ()) :
    (refundH cfg store req gw).2 = store := by
  unfold refundH
  simp only [h]
  repeat' split
  all_goals rfl

/-- A cancelled, paid booking eligible for refund. -/
def bCancelled : Booking :=
  { bPending with
    status := "cancelled"
    payment := { pay0 with status := "completed", razorpayPaymentId := some "pay_77" }
    cancellation := { isCancelled := true, refundStatus := "none", refundAmount := 150,
                      refundTransactionId := none } }

/-- A durable store holding `bCancelled` under a Mongo-shaped id. -/
def storeRefund : Store :=
  { dummy := [], db := [("507f1f77bcf86cd799439011", bCancelled)] }

/-- The refund request matching `storeRefund`, issued by the owner. -/
def reqRefund : RefundReq :=
  { bookingId := "507f1f77bcf86cd799439011", amount := none, userId := "u1", role := "user" }

/-- Witness for C8: the failing gateway leaves the concrete store untouched. -/
theorem refundAtomicOnGatewayFailureWitness :
    (refundH cfg0 storeRefund reqRefund (fun _ => Except.error ())).2 = storeRefund :=
  refundAtomicOnGatewayFailure cfg0 storeRefund reqRefund _ (fun _ => rfl)

attribute [local semireducible] Rat.add Rat.mul Rat.inv Rat.sub in
/-- The C8 witness scenario really reaches the gateway call: the thrown
gateway call surfaces as the route's catch-all server error. -/
theorem refundGatewayFailureReachesGateway :
    (refundH cfg0 storeRefund reqRefund (fun _ => Except.error ())).1 = Res.serverError := by
  decide

/-- The mutation a successful refund applies to the located booking. -/
def refundedMark (b : Booking) (rid : String) : Booking :=
  { b with cancellation := { b.cancellation with
      refundStatus := "processed", refundTransactionId := some rid } }

/-- Everything a successful refund implies: all guards passed and the store
was updated exactly at the requested booking, marking the refund processed
and recording the gateway's refund id. -/
theorem refundH_refunded_inv (cfg : Config) (store : Store) (req : RefundReq)
    (gw : ℤ → Except Unit String) (rid : String) (store₁ : Store)
    (h : refundH cfg store req gw = (.refunded rid, store₁)) :
    cfg.razorpayConfigured = true ∧
    isMongoId req.bookingId = true ∧
    (match req.amount with | some a => decide (a < 0) | none => false) = false ∧
    ∃ b, lookupB store.db req.bookingId = some b ∧
      (b.user = req.userId ∨ req.role = "admin") ∧
      b.cancellation.isCancelled = true ∧
      b.cancellation.refundStatus ≠ "processed" ∧
      store₁ = { store with db := updateB store.db req.bookingId (refundedMark b rid) } := by
  unfold refundH at h
  dsimp only at h
  repeat' split at h
  all_goals simp_all [refundedMark]
  all_goals (obtain ⟨hA, hB⟩ := h; subst hA; subst hB; exact ⟨by tauto, rfl⟩)

/-- **C7.** Refund is at-most-once per booking: after a successful refund,
a second refund request for the same booking yields `AlreadyProcessed`
whatever the gateway would do (the guard fires before any gateway call),
the store is unchanged, and the single recorded refund transaction id is the
one from the successful call. -/
theorem refundAtMostOnce (cfg : Config) (store : Store) (req : RefundReq)
    (gw : ℤ → Except Unit String) (rid : String) (store₁ : Store)
    (h : refundH cfg store req gw = (.refunded rid, store₁)) :
    (∀ gw' : ℤ → Except Unit String,
      refundH cfg store₁ req gw' = (.alreadyProcessed, store₁)) ∧
    ∃ b', lookupB store₁.db req.bookingId = some b' ∧
      b'.cancellation.refundTransactionId = some rid := by
  obtain ⟨hc, hm, hamt, b, hb, hown, hcanc, hrs, hstore⟩ :=
    refundH_refunded_inv cfg store req gw rid store₁ h
  have hlook : lookupB store₁.db req.bookingId = some (refundedMark b rid) := by
    rw [hstore]
    exact lookupB_updateB_self _ _ _ (by rw [hb]; exact fun he => Option.noConfusion he)
  refine ⟨fun gw' => ?_, refundedMark b rid, hlook, rfl⟩
  have hownNeg : ¬((refundedMark b rid).user ≠ req.userId ∧ req.role ≠ "admin") := by
    simp only [refundedMark]
    tauto
  simp only [refundH, hc, hm, hamt, hlook, Bool.not_true, Bool.not_false,
    if_false, if_true, Bool.false_eq_true, if_neg hownNeg]
  simp [refundedMark, hcanc]

/-- A gateway stub whose refund call succeeds with id `rfnd_9`. -/
def gwOk : ℤ → Except Unit String := fun _ => Except.ok "rfnd_9"

/-- The store after a successful refund of `storeRefund`'s booking. -/
def storeRefunded : Store := (refundH cfg0 storeRefund reqRefund gwOk).2

attribute [local semireducible] Rat.add Rat.mul Rat.inv Rat.sub in
/-- Witness for C7: a concrete successful refund, after which any retry is
`AlreadyProcessed` and the single recorded transaction id is `rfnd_9`. -/
theorem refundAtMostOnceWitness :
    (∀ gw' : ℤ → Except Unit String,
      refundH cfg0 storeRefunded reqRefund gw' = (.alreadyProcessed, storeRefunded)) ∧
    ∃ b', lookupB storeRefunded.db reqRefund.bookingId = some b' ∧
      b'.cancellation.refundTransactionId = some "rfnd_9" :=
  refundAtMostOnce cfg0 storeRefund reqRefund gwOk "rfnd_9" storeRefunded (by decide)

/-- A Mongo-shaped id for the create-order scenario. -/
def midC5 : String := "507f1f77bcf86cd799439012"

/-- A durable store holding the pending booking `bPending` under `midC5`. -/
def storeOrder : Store := { dummy := [], db := [(midC5, bPending)] }

/-- The owner's create-order request for `midC5`. -/
def reqCreate : CreateOrderReq := { bookingId := midC5, userId := "u1" }

/-- A gateway stub that creates order `order_A`. -/
def gwOrderA : ℤ → Except Unit String := fun _ => Except.ok "order_A"

/-- A gateway stub that creates order `order_B`. -/
def gwOrderB : ℤ → Except Unit String := fun _ => Except.ok "order_B"

/-- The store after the first create-order call attached `order_A`. -/
def storeOrderA : Store := (createOrderH cfg0 storeOrder reqCreate gwOrderA).2

attribute [local semireducible] Rat.add Rat.mul Rat.inv Rat.sub in
/-- **C5 counterexample.** After `order_A` is attached the booking is still
`pending`, so a second create-order call is *not* rejected by the state
check: it succeeds and overwrites the attached order id with `order_B`. -/
theorem createOrderRecreationCounterexample :
    (lookupB storeOrderA.db midC5).map (fun b => b.payment.razorpayOrderId) =
      some (some "order_A") ∧
    (lookupB storeOrderA.db midC5).map (fun b => b.status) = some "pending" ∧
    (createOrderH cfg0 storeOrderA reqCreate gwOrderB).1 = .orderCreated "order_B" 20000 ∧
    (lookupB (createOrderH cfg0 storeOrderA reqCreate gwOrderB).2.db midC5).map
      (fun b => b.payment.razorpayOrderId) = some (some "order_B") := by
  decide

/-- **C5 (amended).** An order can be created only while the booking is
`pending`: any store mutation by create-order implies the located booking was
pending, and for an owner's well-formed request on a non-pending booking the
call is rejected by the state check with no mutation.  (While the booking is
still pending, re-creation is *not* rejected — see the counterexample.) -/
theorem createOrderOnlyWhilePending (cfg : Config) (store : Store) (req : CreateOrderReq)
    (gw : ℤ → Except Unit String) :
    ((createOrderH cfg store req gw).2 ≠ store →
      ∃ b, (findBooking store req.bookingId).1 = some b ∧ b.status = "pending") ∧
    (∀ b, cfg.razorpayConfigured = true → req.bookingId ≠ "" →
      (findBooking store req.bookingId).1 = some b → b.user = req.userId →
      b.status ≠ "pending" → createOrderH cfg store req gw = (.notPending, store)) := by
  constructor
  · intro hne
    unfold createOrderH at hne
    dsimp only at hne
    repeat' split at hne
    all_goals simp_all
  · intro b hc hbid hfind howner hstatus
    rcases hfb : findBooking store req.bookingId with ⟨ob, fl⟩
    have hob : ob = some b := by rw [← hfind, hfb]
    subst hob
    simp [createOrderH, hc, hbid, hfb, howner, hstatus]

/-- A confirmed booking owned by `u1`. -/
def bConfirmed : Booking := { bPending with status := "confirmed" }

/-- A durable store holding `bConfirmed` under `midC5`. -/
def storeConfirmedOrder : Store := { dummy := [], db := [(midC5, bConfirmed)] }

/-- Witness for the amended C5: once the booking left `pending`, the state
check rejects re-creation. -/
theorem createOrderOnlyWhilePendingWitness :
    createOrderH cfg0 storeConfirmedOrder reqCreate gwOrderB =
      (.notPending, storeConfirmedOrder) :=
  (createOrderOnlyWhilePending cfg0 storeConfirmedOrder reqCreate gwOrderB).2
    bConfirmed (by decide) (by decide) (by decide) (by decide) (by decide)

/-- A non-owner's verify-payment request with an invalid signature. -/
def reqVerMalloryBad : VerifyReq :=
  { razorpay_order_id := "o", razorpay_payment_id := "p",
    razorpay_signature := "bad", bookingId := midC5, userId := "mallory" }

set_option maxRecDepth 400000 in
/-- **C9 counterexample.** A caller who is neither owner nor admin but
supplies an invalid signature gets `InvalidSignature` (400) from
verify-payment, not `Forbidden`: the signature is checked before ownership. -/
theorem ownershipForbiddenCounterexample :
    (verifyPaymentH cfg0 storeOrder reqVerMalloryBad "qr" 0).1 = .invalidSignature ∧
    (verifyPaymentH cfg0 storeOrder reqVerMalloryBad "qr" 0).1 ≠ .accessDenied := by
  decide

/-- **C9 (amended).** For a well-formed request on an existing booking:
refund returns `Forbidden` whenever the caller is neither the booking's
owner nor an admin, regardless of the amount or booking state; verify-payment
returns `Forbidden` for a non-owner only once the supplied signature is valid
(an invalid signature is answered with `InvalidSignature` first, see the
counterexample).  In both cases the store is untouched. -/
theorem ownershipForbidden (cfg : Config) (store : Store) :
    (∀ (req : RefundReq) (gw : ℤ → Except Unit String) (b : Booking),
      cfg.razorpayConfigured = true → isMongoId req.bookingId = true →
      (match req.amount with | some a => decide (a < 0) | none => false) = false →
      lookupB store.db req.bookingId = some b →
      b.user ≠ req.userId → req.role ≠ "admin" →
      refundH cfg store req gw = (.accessDenied, store)) ∧
    (∀ (req : VerifyReq) (secret : String) (b : Booking) (qr : String) (now : Nat),
      req.bookingId ≠ "" → cfg.razorpayKeySecret = some secret →
      verifySignature secret (req.razorpay_order_id ++ "|" ++ req.razorpay_payment_id)
        req.razorpay_signature = true →
      (findBooking store req.bookingId).1 = some b →
      b.user ≠ req.userId →
      verifyPaymentH cfg store req qr now = (.accessDenied, store)) := by
  constructor
  · intro req gw b hc hm hamt hb howner hrole
    have hcond : b.user ≠ req.userId ∧ req.role ≠ "admin" := ⟨howner, hrole⟩
    simp [refundH, hc, hm, hamt, hb, hcond.1, hcond.2]
  · intro req secret b qr now hbid hsecret hsig hfind howner
    rcases hfb : findBooking store req.bookingId with ⟨ob, fl⟩
    have hob : ob = some b := by rw [← hfind, hfb]
    subst hob
    simp [verifyPaymentH, hbid, hsecret, hsig, hfb, howner]

/-- A non-owner's refund request for the `storeOrder` booking. -/
def reqRefundMallory : RefundReq :=
  { bookingId := midC5, amount := none, userId := "mallory", role := "user" }

/-- A non-owner's verify-payment request carrying the genuine signature. -/
def reqVerMallory : VerifyReq :=
  { razorpay_order_id := "o", razorpay_payment_id := "p",
    razorpay_signature := hmacSha256Hex "s3cret" "o|p",
    bookingId := midC5, userId := "mallory" }

set_option maxRecDepth 400000 in
/-- Witness for the amended C9 at concrete non-owner requests. -/
theorem ownershipForbiddenWitness :
    refundH cfg0 storeOrder reqRefundMallory gwOrderA = (.accessDenied, storeOrder) ∧
    verifyPaymentH cfg0 storeOrder reqVerMallory "qr" 0 = (.accessDenied, storeOrder) :=
  ⟨(ownershipForbidden cfg0 storeOrder).1 reqRefundMallory gwOrderA bPending
      (by decide) (by decide) (by decide) (by decide) (by decide) (by decide),
   (ownershipForbidden cfg0 storeOrder).2 reqVerMallory "s3cret" bPending "qr" 0
      (by decide) (by decide) (by decide) (by decide) (by decide)⟩

/-- **C4.** The webhook reconciler is idempotent: whenever the booking
located by gateway order id is already `confirmed`, the handler leaves the
store unchanged (hence any number of deliveries, in any order, are no-ops),
and any store mutation at all implies the located booking was `pending`. -/
theorem webhookIdempotentOnConfirmed (cfg : Config) (store : Store) (rawBody : String)
    (ev : WebhookEvent) (sigHeader : Option String) (now : Nat) (k : String) (b : Booking)
    (hfind : findByOrderId store.db ev.orderId = some (k, b))
    (hconf : b.status = "confirmed") :
    (webhookH cfg store rawBody ev sigHeader now).2 = store ∧
    ∀ (raw' : String) (ev' : WebhookEvent) (sig' : Option String) (now' : Nat),
      (webhookH cfg store raw' ev' sig' now').2 ≠ store →
      ∃ k' b', findByOrderId store.db ev'.orderId = some (k', b') ∧
        b'.status = "pending" := by
  constructor
  · unfold webhookH
    repeat' split
    all_goals simp_all
  · intro raw' ev' sig' now' hne
    unfold webhookH at hne
    repeat' split at hne
    all_goals try simp_all
    all_goals
      (rename_i heq hpend
       first
         | exact ⟨_, _, heq, hpend⟩
         | exact ⟨_, _, ⟨rfl, rfl⟩, hpend⟩)

/-- A confirmed booking that carries gateway order id `order_A`. -/
def bConfirmedOrder : Booking :=
  { bConfirmed with payment :=
    { pay0 with status := "completed", razorpayOrderId := some "order_A" } }

/-- A durable store holding the confirmed booking `bConfirmedOrder`. -/
def storeWebhook : Store := { dummy := [], db := [(midC5, bConfirmedOrder)] }

/-- A raw webhook body (its parse is `evW`). -/
def rawW : String := "\x7b\x7d"

/-- The parsed captured-payment event for order `order_A`. -/
def evW : WebhookEvent :=
  { event := "payment.captured", orderId := "order_A", paymentId := "pay_w" }

set_option maxRecDepth 400000 in
/-- Witness for C4: a signature-valid captured event against the confirmed
booking leaves the concrete store unchanged. -/
theorem webhookIdempotentOnConfirmedWitness :
    (webhookH cfg0 storeWebhook rawW evW (some (hmacSha256Hex "whsec" rawW)) 5).2 =
      storeWebhook ∧
    ∀ (raw' : String) (ev' : WebhookEvent) (sig' : Option String) (now' : Nat),
      (webhookH cfg0 storeWebhook raw' ev' sig' now').2 ≠ storeWebhook →
      ∃ k' b', findByOrderId storeWebhook.db ev'.orderId = some (k', b') ∧
        b'.status = "pending" :=
  webhookIdempotentOnConfirmed cfg0 storeWebhook rawW evW
    (some (hmacSha256Hex "whsec" rawW)) 5 midC5 bConfirmedOrder (by decide) (by decide)

/-- An environment with payment keys but no webhook secret. -/
def cfgNoWh : Config :=
  { razorpayKeyId := some "rzp_test_k", razorpayKeySecret := some "s3cret",
    webhookSecret := none }

/-- **C6 counterexample.** With no webhook secret configured, a
`payment.captured` event for the pending booking's order id is acknowledged
with 200 but *not* processed: the booking stays `pending` instead of
transitioning to `confirmed` as the claim states. -/
theorem webhookNoSecretCounterexample :
    webhookH cfgNoWh storeOrderA rawW evW none 5 = (.webhookOk, storeOrderA) ∧
    (lookupB storeOrderA.db midC5).map (fun b => b.payment.razorpayOrderId) =
      some (some "order_A") ∧
    (lookupB storeOrderA.db midC5).map (fun b => b.status) = some "pending" ∧
    (lookupB (webhookH cfgNoWh storeOrderA rawW evW none 5).2.db midC5).map
      (fun b => b.status) = some "pending" := by
  decide

/-- **C6 (amended).** When no webhook secret is configured, the webhook
handler acknowledges every inbound event with a 200 immediately and without
signature verification, but drops it unprocessed: no booking is read or
mutated, so a pending booking stays pending. -/
theorem webhookNoSecretIgnoresEvent (cfg : Config) (store : Store) (raw : String)
    (ev : WebhookEvent) (sig : Option String) (now : Nat)
    (h : cfg.webhookSecret = none) :
    webhookH cfg store raw ev sig now = (.webhookOk, store) := by
  unfold webhookH
  rw [h]

/-- Witness for the amended C6 at the concrete no-secret configuration. -/
theorem webhookNoSecretIgnoresEventWitness :
    webhookH cfgNoWh storeOrderA rawW evW none 5 = (.webhookOk, storeOrderA) :=
  webhookNoSecretIgnoresEvent cfgNoWh storeOrderA rawW evW none 5 rfl

/-! ## The combined step relation (for the payment-completion invariant) -/

/-- Shape facts from a dummy-branch `findBooking` result. -/
theorem findBooking_dummy_shape (store : Store) (id : String) (b : Booking)
    (h : findBooking store id = (some b, true)) :
    startsWithBooking id = true ∧ lookupB store.dummy id = some b := by
  unfold findBooking at h
  split at h <;> simp_all

/-- Shape facts from a durable-branch `findBooking` result. -/
theorem findBooking_db_shape (store : Store) (id : String) (b : Booking)
    (h : findBooking store id = (some b, false)) :
    startsWithBooking id = false ∧ lookupB store.db id = some b := by
  unfold findBooking at h
  split at h <;> simp_all

/-- Looking up any id after updating the in-memory map at a demo-shaped key. -/
theorem findBooking_update_dummy (store : Store) (k : String) (b' : Booking) (bid : String)
    (hk : startsWithBooking k = true) (hsome : lookupB store.dummy k ≠ none) :
    (findBooking { store with dummy := updateB store.dummy k b' } bid).1 =
      if bid = k then some b' else (findBooking store bid).1 := by
  unfold findBooking
  by_cases hb : startsWithBooking bid
  · simp only [hb, if_true]
    by_cases he : bid = k
    · subst he; simp [lookupB_updateB_self _ _ _ hsome]
    · simp [lookupB_updateB_other _ _ _ _ he, he]
  · have hne : bid ≠ k := fun he => by rw [he] at hb; exact hb hk
    simp [hb, hne]

/-- Looking up any id after updating the durable store at a non-demo key. -/
theorem findBooking_update_db (store : Store) (k : String) (b' : Booking) (bid : String)
    (hk : startsWithBooking k = false) (hsome : lookupB store.db k ≠ none) :
    (findBooking { store with db := updateB store.db k b' } bid).1 =
      if bid = k then some b' else (findBooking store bid).1 := by
  unfold findBooking
  by_cases hb : startsWithBooking bid
  · have hne : bid ≠ k := fun he => by rw [he] at hb; rw [hb] at hk; cases hk
    simp [hb, hne]
  · simp only [hb]
    by_cases he : bid = k
    · subst he; simp [lookupB_updateB_self _ _ _ hsome]
    · simp [lookupB_updateB_other _ _ _ _ he, he, hb]

/-- Variant of `findBooking_dummy_shape` keyed on a separate flag equation. -/
theorem findBooking_dummy_shape2 (store : Store) (id : String) (b : Booking) (fl : Bool)
    (h : findBooking store id = (some b, fl)) (hfl : fl = true) :
    startsWithBooking id = true ∧ lookupB store.dummy id = some b :=
  findBooking_dummy_shape store id b (by rw [hfl] at h; exact h)

/-- Variant of `findBooking_db_shape` keyed on a separate flag equation. -/
theorem findBooking_db_shape2 (store : Store) (id : String) (b : Booking) (fl : Bool)
    (h : findBooking store id = (some b, fl)) (hfl : ¬fl = true) :
    startsWithBooking id = false ∧ lookupB store.db id = some b := by
  rw [Bool.not_eq_true] at hfl
  rw [hfl] at h
  exact findBooking_db_shape store id b h

/-- Order creation never touches `payment.status` of any booking. -/
theorem createOrderH_preserves_payment_status (cfg : Config) (store : Store)
    (req : CreateOrderReq) (gw : ℤ → Except Unit String) (bid : String) :
    ((findBooking (createOrderH cfg store req gw).2 bid).1).map (fun b => b.payment.status) =
      ((findBooking store bid).1).map (fun b => b.payment.status) := by
  unfold createOrderH
  dsimp only
  repeat' split
  all_goals try rfl
  all_goals
    (first
      | (obtain ⟨hk, hlk⟩ :=
           findBooking_dummy_shape2 _ _ _ _ (by assumption) (by assumption)
         rw [findBooking_update_dummy _ _ _ bid hk
           (by rw [hlk]; exact fun hn => Option.noConfusion hn)])
      | (obtain ⟨hk, hlk⟩ :=
           findBooking_db_shape2 _ _ _ _ (by assumption) (by assumption)
         rw [findBooking_update_db _ _ _ bid hk
           (by rw [hlk]; exact fun hn => Option.noConfusion hn)])
     by_cases he : bid = req.bookingId
     · subst he
       simp [findBooking, hk, hlk]
     · simp [he])

/-- A Mongo-shaped id can never have the demo `booking_` prefix. -/
theorem isMongoId_not_dummy (s : String) (h : isMongoId s = true) :
    startsWithBooking s = false := by
  unfold isMongoId at h
  unfold startsWithBooking
  rw [Bool.and_eq_true] at h
  obtain ⟨hlen, hall⟩ := h
  by_cases hp : s.data.take 8 = "booking_".data
  · exfalso
    have hmem : 'o' ∈ s.data.take 8 := by rw [hp]; decide
    have hmem' : 'o' ∈ s.data := List.mem_of_mem_take hmem
    rw [List.all_eq_true] at hall
    have := hall 'o' hmem'
    exact absurd this (by decide)
  · simp [hp]

/-- Refund processing never touches `payment.status` of any booking. -/
theorem refundH_preserves_payment_status (cfg : Config) (store : Store)
    (req : RefundReq) (gw : ℤ → Except Unit String) (bid : String) :
    ((findBooking (refundH cfg store req gw).2 bid).1).map (fun b => b.payment.status) =
      ((findBooking store bid).1).map (fun b => b.payment.status) := by
  unfold refundH
  dsimp only
  repeat' split
  all_goals try rfl
  all_goals
    (have hk := isMongoId_not_dummy req.bookingId (by simp_all)
     rw [findBooking_update_db _ _ _ bid hk (by simp_all)]
     by_cases he : bid = req.bookingId
     · subst he
       simp_all [findBooking, refundedMark]
     · simp [he])

/-- Any store mutation by verify-payment implies its signature check passed. -/
theorem verifyPaymentH_mutation_sig (cfg : Config) (store : Store) (req : VerifyReq)
    (qr : String) (now : Nat)
    (hne : (verifyPaymentH cfg store req qr now).2 ≠ store) :
    ∃ secret, cfg.razorpayKeySecret = some secret ∧
      verifySignature secret (req.razorpay_order_id ++ "|" ++ req.razorpay_payment_id)
        req.razorpay_signature = true := by
  unfold verifyPaymentH at hne
  dsimp only at hne
  repeat' split at hne
  all_goals try (exact absurd rfl hne)
  all_goals exact ⟨_, by assumption, by simp_all⟩

/-- Any store mutation by the webhook implies its signature check passed. -/
theorem webhookH_mutation_sig (cfg : Config) (store : Store) (raw : String)
    (ev : WebhookEvent) (sig : Option String) (now : Nat)
    (hne : (webhookH cfg store raw ev sig now).2 ≠ store) :
    ∃ ws, cfg.webhookSecret = some ws ∧ sig = some (hmacSha256Hex ws raw) := by
  unfold webhookH at hne
  repeat' split at hne
  all_goals try (exact absurd rfl hne)
  all_goals exact ⟨_, by assumption, by simp_all⟩

/-- One inbound call to the payment core. -/
inductive Op where
  | createOrder (req : CreateOrderReq) (gw : ℤ → Except Unit String)
  | verifyPayment (req : VerifyReq) (qr : String) (now : Nat)
  | refund (req : RefundReq) (gw : ℤ → Except Unit String)
  | webhook (rawBody : String) (ev : WebhookEvent) (sigHeader : Option String) (now : Nat)

/-- Dispatch one inbound call to its route handler. -/
def applyOp (cfg : Config) (store : Store) : Op → Res × Store
  | .createOrder req gw => createOrderH cfg store req gw
  | .verifyPayment req qr now => verifyPaymentH cfg store req qr now
  | .refund req gw => refundH cfg store req gw
  | .webhook raw ev sig now => webhookH cfg store raw ev sig now

/-- The call carried a signature that verifies under the respective secret:
the integration key secret over `orderId|paymentId` for the client path, the
webhook secret over the raw body for the webhook path; order creation and
refund never verify a signature. -/
def opSigVerified (cfg : Config) : Op → Prop
  | .verifyPayment req _ _ => ∃ secret, cfg.razorpayKeySecret = some secret ∧
      verifySignature secret (req.razorpay_order_id ++ "|" ++ req.razorpay_payment_id)
        req.razorpay_signature = true
  | .webhook raw _ sig _ => ∃ ws, cfg.webhookSecret = some ws ∧
      sig = some (hmacSha256Hex ws raw)
  | _ => False

/-- **C2.** `payment.status` reaches `completed` only through an operation
whose signature verification succeeded first: if after any single call some
booking reads as `completed`, then either it already was `completed`, or the
call was verify-payment/webhook with a passing HMAC check — order creation
and refund never set it. -/
theorem paymentCompletedOnlyAfterVerification (cfg : Config) (store : Store) (op : Op)
    (bid : String) (b' : Booking)
    (h1 : (findBooking (applyOp cfg store op).2 bid).1 = some b')
    (h2 : b'.payment.status = "completed") :
    (∃ b, (findBooking store bid).1 = some b ∧ b.payment.status = "completed") ∨
      opSigVerified cfg op := by
  cases op with
  | createOrder req gw =>
    left
    simp only [applyOp] at h1
    have hp := createOrderH_preserves_payment_status cfg store req gw bid
    rw [h1] at hp
    rcases hmap : ((findBooking store bid).1) with _ | b
    · rw [hmap] at hp; simp at hp
    · rw [hmap] at hp
      simp only [Option.map_some'] at hp
      refine ⟨b, rfl, ?_⟩
      have := Option.some.inj hp
      rw [← this, h2]
  | refund req gw =>
    left
    simp only [applyOp] at h1
    have hp := refundH_preserves_payment_status cfg store req gw bid
    rw [h1] at hp
    rcases hmap : ((findBooking store bid).1) with _ | b
    · rw [hmap] at hp; simp at hp
    · rw [hmap] at hp
      simp only [Option.map_some'] at hp
      refine ⟨b, rfl, ?_⟩
      have := Option.some.inj hp
      rw [← this, h2]
  | verifyPayment req qr now =>
    by_cases hchg : (verifyPaymentH cfg store req qr now).2 = store
    · left
      simp only [applyOp] at h1
      rw [hchg] at h1
      exact ⟨b', h1, h2⟩
    · right
      exact verifyPaymentH_mutation_sig cfg store req qr now hchg
  | webhook raw ev sig now =>
    by_cases hchg : (webhookH cfg store raw ev sig now).2 = store
    · left
      simp only [applyOp] at h1
      rw [hchg] at h1
      exact ⟨b', h1, h2⟩
    · right
      exact webhookH_mutation_sig cfg store raw ev sig now hchg

set_option maxRecDepth 400000 in
/-- Witness for C2: after an unsigned webhook delivery against a store whose
booking is already `completed`, the invariant's left disjunct holds. -/
theorem paymentCompletedOnlyAfterVerificationWitness :
    (∃ b, (findBooking storeWebhook midC5).1 = some b ∧
      b.payment.status = "completed") ∨
      opSigVerified cfg0 (.webhook rawW evW none 5) :=
  paymentCompletedOnlyAfterVerification cfg0 storeWebhook (.webhook rawW evW none 5)
    midC5 bConfirmedOrder (by decide) (by decide)

/-- A demo-shaped id is never empty. -/
theorem startsWithBooking_ne_empty (s : String) (h : startsWithBooking s = true) :
    s ≠ "" := by
  intro he
  rw [he] at h
  exact absurd h (by decide)

/-- A demo-shaped id never passes the Mongo-id validation. -/
theorem startsWithBooking_not_mongo (s : String) (h : startsWithBooking s = true) :
    isMongoId s = false := by
  by_cases hm : isMongoId s
  · rw [isMongoId_not_dummy s hm] at h
    cases h
  · simpa using hm

/-- The cancelled booking living only in the in-memory demo map. -/
def storeDemoRefund : Store := { dummy := [("booking_1", bCancelled)], db := [] }

/-- The owner's refund request addressed via the demo id. -/
def reqRefundDemo : RefundReq :=
  { bookingId := "booking_1", amount := none, userId := "u1", role := "user" }

attribute [local semireducible] Rat.add Rat.mul Rat.inv Rat.sub in
/-- **C10 counterexample.** For the same cancelled booking value and the same
owner request, the durable variant refunds successfully while the demo
variant is rejected at validation (`isMongoId` rejects demo-shaped ids), so
the two variants are not functionally identical across the core operations. -/
theorem demoDurableRefundCounterexample :
    refundH cfg0 storeDemoRefund reqRefundDemo gwOk =
      (.validationFailed, storeDemoRefund) ∧
    (refundH cfg0 storeRefund reqRefund gwOk).1 = .refunded "rfnd_9" := by
  decide

/-- **C10 (amended).** For the same booking value stored under a demo id in
the in-memory map or under a regular id in the durable store: create-order
returns the same result and applies the identical update to the stored
booking; verify-payment returns the same result and applies the identical
update to the booking's `status` and `payment` sub-record (the durable
variant additionally attaches the QR payload and the notification marker);
refund, however, is rejected at validation for every demo-shaped id, so demo
bookings are not refundable at all. -/
theorem demoDurableCoreAgreement (cfg : Config) (b : Booking) (did mid uid : String)
    (gw : ℤ → Except Unit String) (qr : String) (now : Nat)
    (hdid : startsWithBooking did = true) (hmid : startsWithBooking mid = false)
    (hmide : mid ≠ "") :
    ((createOrderH cfg ⟨[(did, b)], []⟩ ⟨did, uid⟩ gw).1 =
      (createOrderH cfg ⟨[], [(mid, b)]⟩ ⟨mid, uid⟩ gw).1) ∧
    (lookupB (createOrderH cfg ⟨[(did, b)], []⟩ ⟨did, uid⟩ gw).2.dummy did =
      lookupB (createOrderH cfg ⟨[], [(mid, b)]⟩ ⟨mid, uid⟩ gw).2.db mid) ∧
    (∀ oid pid sig,
      (verifyPaymentH cfg ⟨[(did, b)], []⟩ ⟨oid, pid, sig, did, uid⟩ qr now).1 =
        (verifyPaymentH cfg ⟨[], [(mid, b)]⟩ ⟨oid, pid, sig, mid, uid⟩ qr now).1 ∧
      (lookupB (verifyPaymentH cfg ⟨[(did, b)], []⟩
          ⟨oid, pid, sig, did, uid⟩ qr now).2.dummy did).map
          (fun x => (x.status, x.payment)) =
        (lookupB (verifyPaymentH cfg ⟨[], [(mid, b)]⟩
          ⟨oid, pid, sig, mid, uid⟩ qr now).2.db mid).map
          (fun x => (x.status, x.payment))) ∧
    (∀ (amt : Option ℚ) (role : String) (gw' : ℤ → Except Unit String),
      cfg.razorpayConfigured = true →
      refundH cfg ⟨[(did, b)], []⟩ ⟨did, amt, uid, role⟩ gw' =
        (.validationFailed, ⟨[(did, b)], []⟩)) := by
  have hdide : did ≠ "" := startsWithBooking_ne_empty did hdid
  have hmi : isMongoId did = false := startsWithBooking_not_mongo did hdid
  refine ⟨?_, ?_, ?_, ?_⟩
  · by_cases hc : cfg.razorpayConfigured <;>
    rcases hgw : gw (toMinorUnits b.totalAmount) with e | oid <;>
    by_cases hu : b.user = uid <;>
    by_cases hs : b.status = "pending" <;>
    simp [createOrderH, findBooking, lookupB, updateB, hdid, hmid, hdide, hmide,
      hc, hgw, hu, hs]
  · by_cases hc : cfg.razorpayConfigured <;>
    rcases hgw : gw (toMinorUnits b.totalAmount) with e | oid <;>
    by_cases hu : b.user = uid <;>
    by_cases hs : b.status = "pending" <;>
    simp [createOrderH, findBooking, lookupB, updateB, hdid, hmid, hdide, hmide,
      hc, hgw, hu, hs]
  · intro oid pid sig
    rcases hsec : cfg.razorpayKeySecret with _ | secret
    · simp [verifyPaymentH, lookupB, hdide, hmide, hsec]
    · by_cases hv : verifySignature secret (oid ++ "|" ++ pid) sig <;>
      by_cases hu : b.user = uid <;>
      simp [verifyPaymentH, findBooking, lookupB, updateB, hdid, hmid, hdide, hmide,
        hsec, hv, hu]
  · intro amt role gw' hc
    simp [refundH, hc, hmi]

/-- Witness for the amended C10 at a concrete booking stored under the demo
id `booking_1` and the durable id `midC5`. -/
theorem demoDurableCoreAgreementWitness :
    ((createOrderH cfg0 ⟨[("booking_1", bPending)], []⟩ ⟨"booking_1", "u1"⟩ gwOrderA).1 =
      (createOrderH cfg0 ⟨[], [(midC5, bPending)]⟩ ⟨midC5, "u1"⟩ gwOrderA).1) ∧
    (lookupB (createOrderH cfg0 ⟨[("booking_1", bPending)], []⟩
        ⟨"booking_1", "u1"⟩ gwOrderA).2.dummy "booking_1" =
      lookupB (createOrderH cfg0 ⟨[], [(midC5, bPending)]⟩
        ⟨midC5, "u1"⟩ gwOrderA).2.db midC5) ∧
    (∀ oid pid sig,
      (verifyPaymentH cfg0 ⟨[("booking_1", bPending)], []⟩
          ⟨oid, pid, sig, "booking_1", "u1"⟩ "qr" 0).1 =
        (verifyPaymentH cfg0 ⟨[], [(midC5, bPending)]⟩
          ⟨oid, pid, sig, midC5, "u1"⟩ "qr" 0).1 ∧
      (lookupB (verifyPaymentH cfg0 ⟨[("booking_1", bPending)], []⟩
          ⟨oid, pid, sig, "booking_1", "u1"⟩ "qr" 0).2.dummy "booking_1").map
          (fun x => (x.status, x.payment)) =
        (lookupB (verifyPaymentH cfg0 ⟨[], [(midC5, bPending)]⟩
          ⟨oid, pid, sig, midC5, "u1"⟩ "qr" 0).2.db midC5).map
          (fun x => (x.status, x.payment))) ∧
    (∀ (amt : Option ℚ) (role : String) (gw' : ℤ → Except Unit String),
      cfg0.razorpayConfigured = true →
      refundH cfg0 ⟨[("booking_1", bPending)], []⟩ ⟨"booking_1", amt, "u1", role⟩ gw' =
        (.validationFailed, ⟨[("booking_1", bPending)], []⟩)) :=
  demoDurableCoreAgreement cfg0 bPending "booking_1" midC5 "u1" gwOrderA "qr" 0
    (by decide) (by decide) (by decide)
